import Mathlib

/-!
Shallow embedding of the turn-taking / conversation-state core of the
`GeminiInterviewComponent` (src/components/ui/GeminiInterviewComponent.tsx)
of the ployee mock-interview application, together with theorems checking
the natural-language specification against it.

The component is a single-threaded event-driven loop; we embed its mutable
refs and React state as one explicit state record and each event handler as
a state-transition function.  JavaScript strings are embedded as Lean
`String`, JavaScript falsiness of optional strings (`undefined` or `""`)
as a `truthy` test on `Option String`, and the regular-expression matching
used for fact extraction as an executable backtracking matcher over the
exact pattern shapes occurring in the source.
-/

namespace Ployee

/-- The speaker role of one conversation turn. -/
inductive Role
  | user
  | assistant
deriving DecidableEq, Repr

/-- One turn of the conversation history:
`{ role, content, timestamp }` in the source. -/
structure Turn where
  role : Role
  content : String
  timestamp : Nat
deriving DecidableEq, Repr

/-- The interview phase enumeration of the component. -/
inductive Phase
  | introduction
  | experience
  | skills
  | motivation
  | closing
deriving DecidableEq, Repr

/-- The candidate fact sheet (`candidateInfo` state): all fields optional,
initially absent.  Field order follows the source interface. -/
structure CandidateInfo where
  name : Option String := none
  experience : Option String := none
  skills : Option (List String) := none
  interests : Option (List String) := none
  university : Option String := none
  company : Option String := none
deriving DecidableEq, Repr

/-- JavaScript truthiness of an optional string value:
`undefined` and `""` are falsy. -/
def truthy : Option String → Bool
  | none => false
  | some s => !(s == "")

/-! ### Regular-expression matching for fact extraction

Every regex in `updateCandidateInfo` is a sequence of pieces, where each
piece is either an alternation of literal strings (`(?:a|b)` or a literal)
or a lazy one-or-more wildcard `.+?` (which in JavaScript matches any
characters except newline, shortest first).  Exactly one capture group
occurs in each pattern.  We embed patterns as the pieces before, inside and
after the capture group, and implement JavaScript `String.match` semantics:
leftmost start position wins, alternatives are tried in written order, and
lazy wildcards prefer the shortest expansion. -/

/-- One piece of a regex: a literal alternation or a lazy `.+?`. -/
inductive Piece
  | lits : List String → Piece
  | anyLazy : Piece
deriving DecidableEq, Repr

/-- A regex with one capture group: pieces before, inside, after it. -/
structure Pattern where
  pre : List Piece
  cap : List Piece
  post : List Piece
deriving DecidableEq, Repr

/-- Length of the newline-free prefix of a character list: the furthest a
`.` wildcard can reach in JavaScript. -/
def nlFree (cs : List Char) : Nat :=
  (cs.takeWhile (fun c => !(c == '\n'))).length

/-- All ways one piece can consume a prefix of the input, as
(consumed, rest) pairs in backtracking priority order. -/
def matchPiece : Piece → List Char → List (List Char × List Char)
  | Piece.lits alts, cs =>
      alts.filterMap (fun a =>
        let ac := a.toList
        if List.isPrefixOf ac cs then some (ac, cs.drop ac.length) else none)
  | Piece.anyLazy, cs =>
      (List.range (nlFree cs)).map (fun i => (cs.take (i + 1), cs.drop (i + 1)))

/-- All ways a sequence of pieces can consume a prefix of the input, in
backtracking priority order (earlier pieces more significant, matching the
backtracking order of the JavaScript engine). -/
def matchPieces : List Piece → List Char → List (List Char × List Char)
  | [], cs => [([], cs)]
  | p :: ps, cs =>
      (matchPiece p cs).flatMap (fun pr =>
        (matchPieces ps pr.2).map (fun qr => (pr.1 ++ qr.1, qr.2)))

/-- Try to match a pattern anchored at the given input position; on success
return the text of the capture group of the highest-priority match. -/
def matchAt (pat : Pattern) (cs : List Char) : Option String :=
  (((matchPieces pat.pre cs).flatMap (fun pr =>
      (matchPieces pat.cap pr.2).flatMap (fun cr =>
        (matchPieces pat.post cr.2).map (fun _ => cr.1)))).head?).map
    (fun l => String.mk l)

/-- Unanchored search: try each start position from the left, as
JavaScript `String.match` does. -/
def jsMatchFrom (pat : Pattern) : List Char → Option String
  | [] => matchAt pat []
  | c :: rest =>
      match matchAt pat (c :: rest) with
      | some r => some r
      | none => jsMatchFrom pat rest

/-- `transcript.match(pattern)` restricted to the capture group
(`match[1]` in the source). -/
def jsMatchGroup1 (pat : Pattern) (s : String) : Option String :=
  jsMatchFrom pat s.toList

/-- The name-extraction regexes of `updateCandidateInfo`. -/
def namePatterns : List Pattern :=
  [ ⟨[Piece.lits ["私の名前は", "私は"]], [Piece.anyLazy],
      [Piece.lits ["です", "と申します", "と申します", "です"]]⟩,
    ⟨[Piece.lits ["名前は", "名前が"]], [Piece.anyLazy],
      [Piece.lits ["です", "と申します"]]⟩,
    ⟨[Piece.lits ["私は"]], [Piece.anyLazy],
      [Piece.lits ["です", "と申します"]]⟩,
    ⟨[Piece.lits ["候補者は", "応募者は"]], [Piece.anyLazy],
      [Piece.lits ["です", "と申します"]]⟩ ]

/-- The university-extraction regexes of `updateCandidateInfo`. -/
def universityPatterns : List Pattern :=
  [ ⟨[], [Piece.anyLazy, Piece.lits ["大学", "学院", "専門学校", "短大"], Piece.anyLazy],
      [Piece.lits ["です", "出身", "卒業"]]⟩,
    ⟨[Piece.lits ["出身は", "卒業は"]],
      [Piece.anyLazy, Piece.lits ["大学", "学院", "専門学校", "短大"], Piece.anyLazy],
      [Piece.lits ["です", "です"]]⟩,
    ⟨[], [Piece.anyLazy, Piece.lits ["大学", "学院", "専門学校", "短大"], Piece.anyLazy],
      [Piece.lits ["で", "に"], Piece.lits ["通っ", "在学", "卒業"]]⟩,
    ⟨[Piece.lits ["大学は", "学校は"]], [Piece.anyLazy],
      [Piece.lits ["です", "でした"]]⟩ ]

/-- The experience-extraction regexes of `updateCandidateInfo`. -/
def experiencePatterns : List Pattern :=
  [ ⟨[], [Piece.anyLazy, Piece.lits ["経験", "働い", "職歴", "勤務", "在職"], Piece.anyLazy], []⟩,
    ⟨[], [Piece.anyLazy, Piece.lits ["年", "年間"], Piece.anyLazy,
          Piece.lits ["経験", "働い", "職歴"], Piece.anyLazy], []⟩,
    ⟨[], [Piece.anyLazy, Piece.lits ["会社", "企業", "組織"], Piece.anyLazy,
          Piece.lits ["で", "に"], Piece.anyLazy, Piece.lits ["働い", "勤務"], Piece.anyLazy], []⟩ ]

/-- The company-extraction regexes of `updateCandidateInfo`. -/
def companyPatterns : List Pattern :=
  [ ⟨[], [Piece.anyLazy, Piece.lits ["会社", "企業", "株式会社", "有限会社", "合同会社"], Piece.anyLazy],
      [Piece.lits ["で", "に"], Piece.lits ["働い", "勤務"]]⟩,
    ⟨[Piece.lits ["会社は", "企業は"]], [Piece.anyLazy],
      [Piece.lits ["です", "でした"]]⟩,
    ⟨[], [Piece.anyLazy, Piece.lits ["株式会社", "有限会社", "合同会社"], Piece.anyLazy],
      [Piece.lits ["です", "でした"]]⟩ ]

/-- The skills-extraction regexes of `updateCandidateInfo`. -/
def skillsPatterns : List Pattern :=
  [ ⟨[], [Piece.anyLazy, Piece.lits ["スキル", "できる", "技術", "得意", "専門"], Piece.anyLazy], []⟩,
    ⟨[], [Piece.anyLazy, Piece.lits ["プログラミング", "開発", "設計", "分析", "管理"], Piece.anyLazy], []⟩,
    ⟨[], [Piece.anyLazy, Piece.lits ["言語", "ツール", "フレームワーク"], Piece.anyLazy], []⟩ ]

/-- JavaScript `String.prototype.trim`: drop whitespace from both ends. -/
def jsTrim (s : String) : String :=
  String.mk
    (((s.toList.dropWhile Char.isWhitespace).reverse.dropWhile Char.isWhitespace).reverse)

/-- The per-kind extraction loop: try each pattern in order; the first
match whose trimmed capture is longer than `minLen` wins (matches whose
trimmed capture is too short do not stop the loop, as in the source). -/
def tryPatterns (pats : List Pattern) (transcript : String) (minLen : Nat) : Option String :=
  match pats with
  | [] => none
  | p :: rest =>
      match jsMatchGroup1 p transcript with
      | some m =>
          if minLen < (jsTrim m).length then some (jsTrim m)
          else tryPatterns rest transcript minLen
      | none => tryPatterns rest transcript minLen

/-- The name-extraction block of `updateCandidateInfo`:
guarded by `!updated.name` (JavaScript falsiness). -/
def updateName (userTranscript : String) (c : CandidateInfo) : CandidateInfo :=
  if truthy c.name then c else
    match tryPatterns namePatterns userTranscript 0 with
    | some v => { c with name := some v }
    | none => c

/-- The university-extraction block of `updateCandidateInfo`. -/
def updateUniversity (userTranscript : String) (c : CandidateInfo) : CandidateInfo :=
  if truthy c.university then c else
    match tryPatterns universityPatterns userTranscript 2 with
    | some v => { c with university := some v }
    | none => c

/-- The experience-extraction block of `updateCandidateInfo`. -/
def updateExperience (userTranscript : String) (c : CandidateInfo) : CandidateInfo :=
  if truthy c.experience then c else
    match tryPatterns experiencePatterns userTranscript 5 with
    | some v => { c with experience := some v }
    | none => c

/-- The company-extraction block of `updateCandidateInfo`. -/
def updateCompany (userTranscript : String) (c : CandidateInfo) : CandidateInfo :=
  if truthy c.company then c else
    match tryPatterns companyPatterns userTranscript 2 with
    | some v => { c with company := some v }
    | none => c

/-- The skills-extraction block of `updateCandidateInfo`: guarded by
`!updated.skills || updated.skills.length === 0`, and stores a singleton
list containing the trimmed capture. -/
def updateSkills (userTranscript : String) (c : CandidateInfo) : CandidateInfo :=
  if c.skills = none ∨ c.skills = some [] then
    match tryPatterns skillsPatterns userTranscript 3 with
    | some v => { c with skills := some [v] }
    | none => c
  else c

/-- `updateCandidateInfo(aiResponse, userTranscript)` applied to the
previous fact sheet: the five extraction blocks run in source order (the
`aiResponse` argument is never read by the source body). -/
def updateCandidateInfo (aiResponse userTranscript : String) (prev : CandidateInfo) : CandidateInfo :=
  updateSkills userTranscript
    (updateCompany userTranscript
      (updateExperience userTranscript
        (updateUniversity userTranscript
          (updateName userTranscript prev))))

/-- Number of user turns in a history
(`history.filter((msg) => msg.role === "user").length`). -/
def userTurnCount (history : List Turn) : Nat :=
  (history.filter (fun msg => msg.role == Role.user)).length

/-- `updateInterviewPhase`: the phase stored after a history update, a pure
function of the user-turn count with the source's thresholds. -/
def updateInterviewPhase (history : List Turn) : Phase :=
  let userMessageCount := userTurnCount history
  if userMessageCount ≤ 2 then Phase.introduction
  else if userMessageCount ≤ 5 then Phase.experience
  else if userMessageCount ≤ 8 then Phase.skills
  else if userMessageCount ≤ 11 then Phase.motivation
  else Phase.closing

/-- The rendering of one history entry at a given index inside
`formatConversationHistory`. -/
def renderMsg (idx : Nat) (msg : Turn) : String :=
  let messageNumber := idx / 2 + 1
  if msg.role = Role.user then
    "【やり取り" ++ toString messageNumber ++ "】\n候補者: " ++ msg.content ++ "\n"
  else
    "面接官: " ++ msg.content ++ "\n"

/-- `formatConversationHistory`: the placeholder for an empty history,
otherwise the per-index renderings joined with newlines. -/
def formatConversationHistory (history : List Turn) : String :=
  if history.length = 0 then "まだ会話が始まっていません。"
  else String.intercalate "\n" (history.enum.map (fun p => renderMsg p.1 p.2))

/-- The phase-specific extra block inserted into the system prompt during
the introduction phase. -/
def introPhaseBlockText : String :=
  "\n【自己紹介段階の特別指示】\n- 候補者の自己紹介が短い・抽象的・情報が少ない場合は、必ず具体的な質問をして詳細を引き出してください。\n- 例：「どの大学を卒業されましたか？」「ご専門は何ですか？」「どんな仕事をされていますか？」「趣味や興味はありますか？」など。\n- 決して候補者が自発的に話し出すのを待たず、積極的に質問してください。\n- もし候補者が既に「名前」「大学」「専攻」などの基本情報を自己紹介で述べている場合は、これ以上「自己紹介をお願いします」とは言わず、学校外での活動、趣味、アルバイト経験、または次の面接フェーズ（経験・スキル・志望動機など）に自然に移行してください。\n- 例：「大学以外で力を入れている活動はありますか？」「趣味や特技について教えてください」「学生時代に頑張ったことは何ですか？」など。"

/-- The interview-progression guidance block of the system prompt. -/
def progressionBlockText : String :=
  "\n【面接の進行に関する指示】\n- 会話の流れをよく観察し、候補者が十分に自己紹介や基本情報を述べたと判断したら、自然に次の話題や質問に移ってください。\n- フェーズ（自己紹介・経験・スキル・志望動機など）にこだわりすぎず、会話の内容や候補者の発言に応じて柔軟に質問を展開してください。\n- ただ「良いですね」「分かりました」などの相槌だけで終わらず、必ず次の質問や深掘りを行ってください。\n- もし話題に困った場合は、候補者の過去の発言や会話履歴から興味深い点を見つけて質問してください。\n\n【質問の多様性と深掘り】\n- 同じ質問を2回以上繰り返さないでください。会話履歴を確認して、既に聞いた内容は避けてください。\n- 表面的な質問だけでなく、必ず深掘り質問をしてください。例：\n  * 「なぜその活動を始められたのですか？」\n  * 「その経験から何を学ばれましたか？」\n  * 「具体的にどのような困難がありましたか？」\n  * 「その結果、どのような変化がありましたか？」\n- 質問のバリエーションを豊富にしてください：\n  * 経験・活動：「学生時代に最も印象に残っている経験は？」「部活動やサークル活動は？」「アルバイト経験は？」「インターンシップ経験は？」\n  * スキル・技術：「得意な技術やツールは？」「最近学んでいることは？」「技術的な課題にどう取り組みますか？」\n  * 志望動機：「なぜこの業界に興味を持たれましたか？」「将来のキャリアビジョンは？」「この会社を選んだ理由は？」\n  * 性格・価値観：「ストレス解消法は？」「チームワークで大切にしていることは？」「失敗から学んだことは？」\n\n【会話履歴の活用】\n- 候補者が既に話した内容を必ず覚えておき、同じ質問を繰り返さないでください。\n- 前の回答を踏まえて、より具体的で深い質問をしてください。\n- 候補者が言及したキーワードや経験を拾って、それについて詳しく聞いてください。"

/-- The rendered candidate-information section of the system prompt: empty
unless a (truthy) name is known, and containing one line per known fact
(skills are rendered whenever the list is present, as in the source, where
an empty array is truthy). -/
def candidateInfoTextOf (candidateInfo : CandidateInfo) : String :=
  if truthy candidateInfo.name then
    "\n候補者情報:\n- 名前: " ++ candidateInfo.name.getD ""
    ++ (if truthy candidateInfo.university then "\n- 大学: " ++ candidateInfo.university.getD "" else "")
    ++ (if truthy candidateInfo.company then "\n- 会社: " ++ candidateInfo.company.getD "" else "")
    ++ (if truthy candidateInfo.experience then "\n- 経験: " ++ candidateInfo.experience.getD "" else "")
    ++ (if candidateInfo.skills.isSome then
          "\n- スキル: " ++ String.intercalate ", " (candidateInfo.skills.getD []) else "")
  else ""

/-- The Japanese display label of a phase used inside the system prompt. -/
def phaseDisplay : Phase → String
  | Phase.introduction => "自己紹介"
  | Phase.experience => "経歴・経験"
  | Phase.skills => "スキル確認"
  | Phase.motivation => "志望動機"
  | Phase.closing => "質疑応答"

/-- `createSystemPrompt`: the full directive prompt rendered from the
current phase, conversation history and candidate fact sheet. -/
def createSystemPrompt (interviewPhase : Phase) (conversationHistory : List Turn)
    (candidateInfo : CandidateInfo) : String :=
  let introPhaseBlock := if interviewPhase = Phase.introduction then introPhaseBlockText else ""
  "あなたは経験豊富な日本企業の面接官です。以下の指針に従って面接を進めてください："
  ++ introPhaseBlock ++ progressionBlockText
  ++ "\n\n**重要な指示:**\n- 会話の履歴を必ず参照し、候補者が既に話した内容を覚えておく\n- 候補者の名前、大学、会社、経験、スキルなどの情報を記憶し、後で参照する\n- 一貫性のある会話を維持する\n\n**面接の流れ:**\n- 自己紹介から始める（introduction段階）\n- 経歴・経験について詳しく聞く（experience段階）\n- スキルや専門知識を確認（skills段階）\n- 志望動機や将来の目標を聞く（motivation段階）\n- 質問の機会を提供して締める（closing段階）\n\n**面接官としての態度:**\n- 丁寧で敬語を使った話し方\n- 候補者の回答に対して適切な深掘り質問\n- 1回の応答は1-2個の質問に留める\n- 候補者にたくさん話してもらう\n- 自然な会話の流れを作る\n\n**記憶の活用:**\n- 前の回答を参考にした質問をする\n- 候補者の発言に一貫性があるかチェック\n- 具体的な例やエピソードを求める\n- 候補者の名前を適切に使用する\n\n**現在の面接フェーズ:** "
  ++ phaseDisplay interviewPhase
  ++ "\n\n**会話履歴:**\n"
  ++ formatConversationHistory conversationHistory
  ++ candidateInfoTextOf candidateInfo
  ++ "\n\n各回答は1文と必ず簡潔にまとめてください。"

/-! ### The component state and its event handlers -/

/-- The mutable state of the interview component: React state and the
mutable refs that drive the turn loop, flattened into one record.  The
boolean flags mirror the refs, which are the authority in the source's
guards; `silenceTimerPending` embeds `silenceTimerRef.current !== null`,
`chunks` the sizes of the blobs in `chunksRef.current`, and
`currentRecordingSession` the session counter ref. -/
structure IState where
  isActive : Bool
  isSpeaking : Bool
  isProcessing : Bool
  isPlayingTTS : Bool
  hasSpokenInCurrentSession : Bool
  previousSpeakingState : Bool
  silenceTimerPending : Bool
  chunks : List Nat
  currentRecordingSession : Nat
  conversationHistory : List Turn
  interviewPhase : Phase
  candidateInfo : CandidateInfo
  response : String
  error : String
deriving DecidableEq, Repr

/-- The component's initial state (all refs at their initial values). -/
def initialState : IState :=
  { isActive := false, isSpeaking := false, isProcessing := false, isPlayingTTS := false,
    hasSpokenInCurrentSession := false, previousSpeakingState := false,
    silenceTimerPending := false, chunks := [], currentRecordingSession := 0,
    conversationHistory := [], interviewPhase := Phase.introduction,
    candidateInfo := {}, response := "", error := "" }

/-- The speaking/silence classification of one analyser sample
(`dataArray` of byte frequency values): the source computes
`average = sum / length`, `normalizedLevel = average / 255` and compares
`normalizedLevel > SILENCE_THRESHOLD` with `SILENCE_THRESHOLD = 0.05`;
here the same comparison is cross-multiplied into exact `Nat` arithmetic
(`sum / length / 255 > 5 / 100  ↔  255 * length * 5 < sum * 100`; for an
empty sample both sides classify as silence). -/
def isSpeakingSample (dataArray : List Nat) : Bool :=
  decide (255 * dataArray.length * 5 < (dataArray.foldl (fun a b => a + b) 0) * 100)

/-- `startNewRecordingSession`: bumps the session counter, clears the
utterance buffer, the spoken/previous-speaking flags and any pending
silence countdown, and starts a fresh recorder tagged with the new id. -/
def startNewRecordingSession (s : IState) : IState :=
  { s with currentRecordingSession := s.currentRecordingSession + 1,
           chunks := [], hasSpokenInCurrentSession := false,
           previousSpeakingState := false, silenceTimerPending := false }

/-- The recorder's `ondataavailable` handler: a chunk tagged with session
`tag` of byte size `size` is appended to the buffer only if it is nonempty,
the system is neither processing nor playing TTS, and the tag equals the
current session id. -/
def onDataAvailable (tag size : Nat) (s : IState) : IState :=
  if 0 < size ∧ s.isProcessing = false ∧ s.isPlayingTTS = false ∧
     tag = s.currentRecordingSession then
    { s with chunks := s.chunks ++ [size] }
  else s

/-- `analyzeAudio` at one sampling tick, given the analyser's byte
frequency data for this sample: classifies speaking/silence, cancels the
countdown on speech, and arms the silence countdown exactly under the
source's guard. -/
def analyzeAudio (dataArray : List Nat) (s : IState) : IState :=
  if s.isProcessing = true ∨ s.isPlayingTTS = true then s
  else if isSpeakingSample dataArray then
    { s with isSpeaking := true, hasSpokenInCurrentSession := true,
             silenceTimerPending := false, previousSpeakingState := true }
  else if s.hasSpokenInCurrentSession = true ∧ s.previousSpeakingState = true ∧
          s.chunks ≠ [] ∧ s.silenceTimerPending = false ∧
          s.isProcessing = false ∧ s.isPlayingTTS = false then
    { s with isSpeaking := false, silenceTimerPending := true,
             previousSpeakingState := false }
  else
    { s with isSpeaking := false, previousSpeakingState := false }

/-- The outcome of the network round trip to `/api/interview-conversation`:
either a thrown failure (fetch rejection or a non-ok status, with the
resulting error message) or a parsed JSON body.  Absent JSON fields are
embedded as `""` (they are only ever used through falsy checks). -/
inductive NetOutcome
  | failure : String → NetOutcome
  | ok : String → String → String → String → NetOutcome
deriving DecidableEq, Repr

/-- Result of a `sendCurrentAudio` call: the new state, and whether a
network request was actually issued. -/
structure SendResult where
  state : IState
  netCalled : Bool
deriving DecidableEq, Repr

/-- Total size of the dispatched audio blob: the sum of the buffered chunk
sizes. -/
def chunkSum (l : List Nat) : Nat := l.foldl (fun a b => a + b) 0

/-- The state mutations `sendCurrentAudio` performs before its `try` block
runs: mark processing, cancel the countdown, clear the utterance buffer and
the spoken/previous-speaking flags (the buffer having been snapshotted),
then clear the error display. -/
def dispatchReset (s : IState) : IState :=
  { s with isProcessing := true, silenceTimerPending := false, chunks := [],
           hasSpokenInCurrentSession := false, previousSpeakingState := false,
           error := "" }

/-- The `catch`/`finally` tail of a failed `sendCurrentAudio`: surface the
error message, start a fresh recording session, and drop the processing
flag. -/
def sendFail (msg : String) (s : IState) : IState :=
  { startNewRecordingSession { s with error := "エラーが発生しました: " ++ msg }
    with isProcessing := false }

/-- The conversation-state mutations of a successful round trip: display
the response text, append the user turn (transcript, or the placeholder
when absent) and the assistant turn, recompute the phase from the new
history, and update the fact sheet when a transcript is present. -/
def appendTurns (text transcript : String) (tsUser tsAssistant : Nat) (s1 : IState) : IState :=
  let newUserMessage : Turn :=
    ⟨Role.user, if transcript = "" then "[Audio message]" else transcript, tsUser⟩
  let newAssistantMessage : Turn := ⟨Role.assistant, text, tsAssistant⟩
  let newHistory := s1.conversationHistory ++ [newUserMessage, newAssistantMessage]
  { s1 with response := text, conversationHistory := newHistory,
            interviewPhase := updateInterviewPhase newHistory,
            candidateInfo :=
              if transcript = "" then s1.candidateInfo
              else updateCandidateInfo text transcript s1.candidateInfo }

/-- `sendCurrentAudio`, with the network outcome and the two `Date.now()`
readings passed as parameters: guard against an empty buffer or an
in-flight request, snapshot and reset, validate the payload size, then on
success append the user and assistant turns, recompute the phase, update
the fact sheet when a transcript is present, and either enter TTS playback
(when both `audio` and `mimeType` are truthy) or start a fresh recording
session directly. -/
def sendCurrentAudio (outcome : NetOutcome) (tsUser tsAssistant : Nat) (s : IState) : SendResult :=
  if s.chunks = [] ∨ s.isProcessing = true then ⟨s, false⟩
  else
    let audioChunks := s.chunks
    let s1 := dispatchReset s
    let size := chunkSum audioChunks
    if size = 0 then ⟨sendFail "Empty audio data" s1, false⟩
    else if size < 1000 then
      ⟨sendFail "Audio data too small - please speak longer" s1, false⟩
    else
      match outcome with
      | NetOutcome.failure msg => ⟨sendFail msg s1, true⟩
      | NetOutcome.ok text transcript audio mimeType =>
        if text = "" then ⟨sendFail "No text response from API" s1, true⟩
        else
          let s2 := appendTurns text transcript tsUser tsAssistant s1
          if audio ≠ "" ∧ mimeType ≠ "" then
            ⟨{ s2 with isPlayingTTS := true, isProcessing := false }, true⟩
          else
            ⟨{ startNewRecordingSession s2 with isProcessing := false }, true⟩

/-- The TTS `audio.onended` handler: leave the playing state and start a
fresh recording session. -/
def onPlaybackEnded (s : IState) : IState :=
  startNewRecordingSession { s with isPlayingTTS := false }

/-- The TTS `audio.onerror` handler: identical to normal completion. -/
def onPlaybackError (s : IState) : IState :=
  startNewRecordingSession { s with isPlayingTTS := false }

/-- The synthetic initial assistant greeting emitted at session start. -/
def initialMessage : String :=
  "本日はお時間をいただきありがとうございます。まずは簡単に自己紹介をお願いできますか？"

/-- `handleInitialAIGreeting`: replace the history with the single
greeting turn and display it, with no network call. -/
def handleInitialAIGreeting (ts : Nat) (s : IState) : IState :=
  { s with conversationHistory := [⟨Role.assistant, initialMessage, ts⟩],
           response := initialMessage }

/-- `startRealTimeRecording`, with the usage-gate verdict (and its
reported numbers) and microphone availability passed as parameters: deny
on the usage limit, fail on microphone error, otherwise reset the
conversation state, start the first recording session and activate. -/
def startRealTimeRecording (usageCanStart : Bool) (currentUsage planLimit : Nat)
    (micOk : Bool) (s : IState) : IState :=
  if usageCanStart = false then
    { s with error := "月間利用制限に達しました (" ++ toString currentUsage ++ "/"
                      ++ toString planLimit ++ "分)" }
  else if micOk = false then
    { s with error := "マイクへのアクセスに失敗しました" }
  else
    let s1 := { s with conversationHistory := [], interviewPhase := Phase.introduction,
                       candidateInfo := {}, response := "", error := "" }
    { startNewRecordingSession s1 with isActive := true }

/-- The `cleanup` callback: stop capture and playback, clear buffers,
timers and all ref-backed flags. -/
def cleanup (s : IState) : IState :=
  { s with chunks := [], silenceTimerPending := false,
           previousSpeakingState := false, hasSpokenInCurrentSession := false,
           isProcessing := false, isPlayingTTS := false }

/-- `stopRealTimeRecording`: run cleanup, deactivate, and reset the
recording-session counter to 0. -/
def stopRealTimeRecording (s : IState) : IState :=
  { cleanup s with isActive := false, isSpeaking := false,
                   isPlayingTTS := false, isProcessing := false,
                   currentRecordingSession := 0 }

/-- `toggleRecording`: stop when active; otherwise emit the initial
greeting and then start real-time recording. -/
def toggleRecording (usageCanStart : Bool) (currentUsage planLimit : Nat)
    (micOk : Bool) (tsGreeting : Nat) (s : IState) : IState :=
  if s.isActive then stopRealTimeRecording s
  else startRealTimeRecording usageCanStart currentUsage planLimit micOk
         (handleInitialAIGreeting tsGreeting s)

/-- The discrete events driving the loop, each carrying the environment
data its handler reads. -/
inductive Event
  | dataAvail : Nat → Nat → Event
  | analyze : List Nat → Event
  | silenceTimeout : NetOutcome → Nat → Nat → Event
  | playbackEnded : Event
  | playbackError : Event
deriving DecidableEq, Repr

/-- One event step over (state, number of network calls so far).  The
silence timeout callback only exists while a countdown is pending. -/
def step (e : Event) (acc : IState × Nat) : IState × Nat :=
  match e with
  | Event.dataAvail tag size => (onDataAvailable tag size acc.1, acc.2)
  | Event.analyze lv => (analyzeAudio lv acc.1, acc.2)
  | Event.silenceTimeout o t1 t2 =>
      if acc.1.silenceTimerPending then
        let r := sendCurrentAudio o t1 t2 acc.1
        (r.state, acc.2 + (if r.netCalled then 1 else 0))
      else acc
  | Event.playbackEnded => (onPlaybackEnded acc.1, acc.2)
  | Event.playbackError => (onPlaybackError acc.1, acc.2)

/-- Run a sequence of events from a state, counting network calls. -/
def runScenario (evs : List Event) (s : IState) : IState × Nat :=
  evs.foldl (fun acc e => step e acc) (s, 0)

/-- Well-formedness of extracted fact-sheet values: every populated string
kind is nonempty and a populated skills list is nonempty.  Every fact sheet
the extractor can produce from the empty one satisfies this. -/
def goodInfo (c : CandidateInfo) : Prop :=
  (∀ v, c.name = some v → v ≠ "") ∧ (∀ v, c.university = some v → v ≠ "") ∧
  (∀ v, c.experience = some v → v ≠ "") ∧ (∀ v, c.company = some v → v ≠ "") ∧
  (∀ l, c.skills = some l → l ≠ [])

/-- The fact sheet after a session that processed the given sequence of
(AI response, user transcript) pairs in order, starting empty. -/
def applyTranscripts (ps : List (String × String)) : CandidateInfo :=
  ps.foldl (fun c p => updateCandidateInfo p.1 p.2 c) {}

/-- A history consisting of `n` user turns (for exercising the phase
classifier at a given user-turn count). -/
def mkUserHist (n : Nat) : List Turn :=
  (List.range n).map (fun i => ⟨Role.user, "", i⟩)

/-- The state right after the user starts a session (usage allowed,
microphone available). -/
def c1Start : IState := toggleRecording true 0 120 true 0 initialState

/-- The response of the specification's end-to-end scenario:
`{text:"Q2", transcript:"I am Taro", audio:null}`. -/
def c1Response : NetOutcome := NetOutcome.ok "Q2" "I am Taro" "" ""

/-- The event trace of the end-to-end scenario: one buffered chunk, one
speaking sample, one silence sample (arming the countdown), then the
countdown fires and the round trip completes. -/
def c1Trace : List Event :=
  [Event.dataAvail 1 2000, Event.analyze [255], Event.analyze [0],
   Event.silenceTimeout c1Response 10 11]

/-- State after the first session start. -/
def c3StateA : IState := toggleRecording true 0 120 true 0 initialState

/-- State after stopping that session. -/
def c3StateB : IState := toggleRecording true 0 120 true 0 c3StateA

/-- State after starting a second session after the stop. -/
def c3StateC : IState := toggleRecording true 0 120 true 0 c3StateB

/-! ### Helper lemmas -/

lemma sendFail_spec (msg : String) (s : IState) :
    (sendFail msg s).error = "エラーが発生しました: " ++ msg ∧
    (sendFail msg s).currentRecordingSession = s.currentRecordingSession + 1 ∧
    (sendFail msg s).isProcessing = false ∧
    (sendFail msg s).isPlayingTTS = s.isPlayingTTS ∧
    (sendFail msg s).chunks = [] ∧
    (sendFail msg s).hasSpokenInCurrentSession = false ∧
    (sendFail msg s).previousSpeakingState = false ∧
    (sendFail msg s).silenceTimerPending = false ∧
    (sendFail msg s).conversationHistory = s.conversationHistory ∧
    (sendFail msg s).interviewPhase = s.interviewPhase ∧
    (sendFail msg s).candidateInfo = s.candidateInfo := by
  refine ⟨rfl, rfl, rfl, rfl, rfl, rfl, rfl, rfl, rfl, rfl, rfl⟩

lemma dispatchReset_spec (s : IState) :
    (dispatchReset s).chunks = [] ∧
    (dispatchReset s).isProcessing = true ∧
    (dispatchReset s).isPlayingTTS = s.isPlayingTTS ∧
    (dispatchReset s).currentRecordingSession = s.currentRecordingSession ∧
    (dispatchReset s).conversationHistory = s.conversationHistory ∧
    (dispatchReset s).interviewPhase = s.interviewPhase ∧
    (dispatchReset s).candidateInfo = s.candidateInfo ∧
    (dispatchReset s).hasSpokenInCurrentSession = false ∧
    (dispatchReset s).previousSpeakingState = false ∧
    (dispatchReset s).silenceTimerPending = false := by
  refine ⟨rfl, rfl, rfl, rfl, rfl, rfl, rfl, rfl, rfl, rfl⟩

lemma startNewRecordingSession_spec (s : IState) :
    (startNewRecordingSession s).currentRecordingSession = s.currentRecordingSession + 1 ∧
    (startNewRecordingSession s).chunks = [] ∧
    (startNewRecordingSession s).hasSpokenInCurrentSession = false ∧
    (startNewRecordingSession s).previousSpeakingState = false ∧
    (startNewRecordingSession s).silenceTimerPending = false ∧
    (startNewRecordingSession s).isProcessing = s.isProcessing ∧
    (startNewRecordingSession s).isPlayingTTS = s.isPlayingTTS ∧
    (startNewRecordingSession s).conversationHistory = s.conversationHistory ∧
    (startNewRecordingSession s).interviewPhase = s.interviewPhase ∧
    (startNewRecordingSession s).candidateInfo = s.candidateInfo ∧
    (startNewRecordingSession s).error = s.error := by
  refine ⟨rfl, rfl, rfl, rfl, rfl, rfl, rfl, rfl, rfl, rfl, rfl⟩

lemma appendTurns_spec (text transcript : String) (t1 t2 : Nat) (s1 : IState) :
    (appendTurns text transcript t1 t2 s1).conversationHistory
      = s1.conversationHistory
        ++ [⟨Role.user, if transcript = "" then "[Audio message]" else transcript, t1⟩,
            ⟨Role.assistant, text, t2⟩] ∧
    (appendTurns text transcript t1 t2 s1).interviewPhase
      = updateInterviewPhase (appendTurns text transcript t1 t2 s1).conversationHistory ∧
    (appendTurns text transcript t1 t2 s1).currentRecordingSession
      = s1.currentRecordingSession ∧
    (appendTurns text transcript t1 t2 s1).isPlayingTTS = s1.isPlayingTTS ∧
    (appendTurns text transcript t1 t2 s1).isProcessing = s1.isProcessing ∧
    (appendTurns text transcript t1 t2 s1).chunks = s1.chunks ∧
    (appendTurns text transcript t1 t2 s1).hasSpokenInCurrentSession
      = s1.hasSpokenInCurrentSession ∧
    (appendTurns text transcript t1 t2 s1).previousSpeakingState
      = s1.previousSpeakingState ∧
    (appendTurns text transcript t1 t2 s1).silenceTimerPending
      = s1.silenceTimerPending := by
  refine ⟨rfl, rfl, rfl, rfl, rfl, rfl, rfl, rfl, rfl⟩

lemma sendCurrentAudio_eq_guard (o : NetOutcome) (t1 t2 : Nat) (s : IState)
    (h : s.chunks = [] ∨ s.isProcessing = true) :
    sendCurrentAudio o t1 t2 s = ⟨s, false⟩ := by
  unfold sendCurrentAudio
  rw [if_pos h]

lemma sendCurrentAudio_eq_small (o : NetOutcome) (t1 t2 : Nat) (s : IState)
    (hne : s.chunks ≠ []) (hpr : s.isProcessing = false)
    (hsz : chunkSum s.chunks < 1000) :
    sendCurrentAudio o t1 t2 s
      = ⟨sendFail (if chunkSum s.chunks = 0 then "Empty audio data"
                   else "Audio data too small - please speak longer")
          (dispatchReset s), false⟩ := by
  have hg : ¬(s.chunks = [] ∨ s.isProcessing = true) := by simp [hne, hpr]
  by_cases h0 : chunkSum s.chunks = 0
  · simp only [sendCurrentAudio, if_neg hg, if_pos h0]
  · simp only [sendCurrentAudio, if_neg hg, if_neg h0, if_pos hsz]

lemma sendCurrentAudio_eq_netFailure (msg : String) (t1 t2 : Nat) (s : IState)
    (hne : s.chunks ≠ []) (hpr : s.isProcessing = false)
    (hsz : 1000 ≤ chunkSum s.chunks) :
    sendCurrentAudio (NetOutcome.failure msg) t1 t2 s
      = ⟨sendFail msg (dispatchReset s), true⟩ := by
  have hg : ¬(s.chunks = [] ∨ s.isProcessing = true) := by simp [hne, hpr]
  have h0 : ¬(chunkSum s.chunks = 0) := by omega
  have h1 : ¬(chunkSum s.chunks < 1000) := by omega
  simp only [sendCurrentAudio, if_neg hg, if_neg h0, if_neg h1]

lemma sendCurrentAudio_eq_noText (transcript audio mimeType : String) (t1 t2 : Nat)
    (s : IState) (hne : s.chunks ≠ []) (hpr : s.isProcessing = false)
    (hsz : 1000 ≤ chunkSum s.chunks) :
    sendCurrentAudio (NetOutcome.ok "" transcript audio mimeType) t1 t2 s
      = ⟨sendFail "No text response from API" (dispatchReset s), true⟩ := by
  have hg : ¬(s.chunks = [] ∨ s.isProcessing = true) := by simp [hne, hpr]
  have h0 : ¬(chunkSum s.chunks = 0) := by omega
  have h1 : ¬(chunkSum s.chunks < 1000) := by omega
  simp only [sendCurrentAudio, if_neg hg, if_neg h0, if_neg h1, if_pos rfl, if_true]

lemma sendCurrentAudio_eq_ok_noaudio (text transcript audio mimeType : String)
    (t1 t2 : Nat) (s : IState) (hne : s.chunks ≠ []) (hpr : s.isProcessing = false)
    (hsz : 1000 ≤ chunkSum s.chunks) (htext : text ≠ "")
    (haud : ¬(audio ≠ "" ∧ mimeType ≠ "")) :
    sendCurrentAudio (NetOutcome.ok text transcript audio mimeType) t1 t2 s
      = ⟨{ startNewRecordingSession (appendTurns text transcript t1 t2 (dispatchReset s))
           with isProcessing := false }, true⟩ := by
  have hg : ¬(s.chunks = [] ∨ s.isProcessing = true) := by simp [hne, hpr]
  have h0 : ¬(chunkSum s.chunks = 0) := by omega
  have h1 : ¬(chunkSum s.chunks < 1000) := by omega
  simp only [sendCurrentAudio, if_neg hg, if_neg h0, if_neg h1, if_neg htext, if_neg haud]

lemma sendCurrentAudio_eq_ok_audio (text transcript audio mimeType : String)
    (t1 t2 : Nat) (s : IState) (hne : s.chunks ≠ []) (hpr : s.isProcessing = false)
    (hsz : 1000 ≤ chunkSum s.chunks) (htext : text ≠ "")
    (haud : audio ≠ "" ∧ mimeType ≠ "") :
    sendCurrentAudio (NetOutcome.ok text transcript audio mimeType) t1 t2 s
      = ⟨{ appendTurns text transcript t1 t2 (dispatchReset s)
           with isPlayingTTS := true, isProcessing := false }, true⟩ := by
  have hg : ¬(s.chunks = [] ∨ s.isProcessing = true) := by simp [hne, hpr]
  have h0 : ¬(chunkSum s.chunks = 0) := by omega
  have h1 : ¬(chunkSum s.chunks < 1000) := by omega
  simp only [sendCurrentAudio, if_neg hg, if_neg h0, if_neg h1, if_neg htext, if_pos haud]

/-- A typical mid-conversation state with one buffered utterance, used to
instantiate the universally quantified theorems. -/
def sampleState : IState :=
  { initialState with isActive := true, chunks := [1500], currentRecordingSession := 1 }

/-- A state whose buffered utterance is below the minimum size floor. -/
def smallState : IState :=
  { initialState with isActive := true, chunks := [500], currentRecordingSession := 1 }

/-! ### Fact-extraction lemmas -/

lemma tryPatterns_some_len (t : String) (n : Nat) :
    ∀ (pats : List Pattern) (v : String), tryPatterns pats t n = some v → n < v.length := by
  intro pats
  induction pats with
  | nil =>
    intro v h
    simp [tryPatterns] at h
  | cons p rest ih =>
    intro v h
    cases hm : jsMatchGroup1 p t with
    | none =>
      simp only [tryPatterns, hm] at h
      exact ih v h
    | some m =>
      simp only [tryPatterns, hm] at h
      by_cases hl : n < (jsTrim m).length
      · rw [if_pos hl] at h
        cases h
        exact hl
      · rw [if_neg hl] at h
        exact ih v h

lemma updateName_cases (t : String) (c : CandidateInfo) :
    updateName t c = c ∨
    ∃ v, v ≠ "" ∧ updateName t c = { c with name := some v } := by
  unfold updateName
  by_cases hn : truthy c.name
  · rw [if_pos hn]
    exact Or.inl rfl
  · rw [if_neg hn]
    cases hm : tryPatterns namePatterns t 0 with
    | none => exact Or.inl rfl
    | some v =>
      refine Or.inr ⟨v, ?_, rfl⟩
      have hlen := tryPatterns_some_len t 0 namePatterns v hm
      intro hveq
      rw [hveq] at hlen
      exact absurd hlen (by decide)

lemma updateUniversity_cases (t : String) (c : CandidateInfo) :
    updateUniversity t c = c ∨
    ∃ v, v ≠ "" ∧ updateUniversity t c = { c with university := some v } := by
  unfold updateUniversity
  by_cases hn : truthy c.university
  · rw [if_pos hn]
    exact Or.inl rfl
  · rw [if_neg hn]
    cases hm : tryPatterns universityPatterns t 2 with
    | none => exact Or.inl rfl
    | some v =>
      refine Or.inr ⟨v, ?_, rfl⟩
      have hlen := tryPatterns_some_len t 2 universityPatterns v hm
      intro hveq
      rw [hveq] at hlen
      exact absurd hlen (by decide)

lemma updateExperience_cases (t : String) (c : CandidateInfo) :
    updateExperience t c = c ∨
    ∃ v, v ≠ "" ∧ updateExperience t c = { c with experience := some v } := by
  unfold updateExperience
  by_cases hn : truthy c.experience
  · rw [if_pos hn]
    exact Or.inl rfl
  · rw [if_neg hn]
    cases hm : tryPatterns experiencePatterns t 5 with
    | none => exact Or.inl rfl
    | some v =>
      refine Or.inr ⟨v, ?_, rfl⟩
      have hlen := tryPatterns_some_len t 5 experiencePatterns v hm
      intro hveq
      rw [hveq] at hlen
      exact absurd hlen (by decide)

lemma updateCompany_cases (t : String) (c : CandidateInfo) :
    updateCompany t c = c ∨
    ∃ v, v ≠ "" ∧ updateCompany t c = { c with company := some v } := by
  unfold updateCompany
  by_cases hn : truthy c.company
  · rw [if_pos hn]
    exact Or.inl rfl
  · rw [if_neg hn]
    cases hm : tryPatterns companyPatterns t 2 with
    | none => exact Or.inl rfl
    | some v =>
      refine Or.inr ⟨v, ?_, rfl⟩
      have hlen := tryPatterns_some_len t 2 companyPatterns v hm
      intro hveq
      rw [hveq] at hlen
      exact absurd hlen (by decide)

lemma updateSkills_cases (t : String) (c : CandidateInfo) :
    updateSkills t c = c ∨
    ∃ v, updateSkills t c = { c with skills := some [v] } := by
  unfold updateSkills
  by_cases hn : c.skills = none ∨ c.skills = some []
  · rw [if_pos hn]
    cases hm : tryPatterns skillsPatterns t 3 with
    | none => exact Or.inl rfl
    | some v => exact Or.inr ⟨v, rfl⟩
  · rw [if_neg hn]
    exact Or.inl rfl

lemma updateName_frozen (t : String) (c : CandidateInfo) (v : String) (hv : v ≠ "")
    (h : c.name = some v) : (updateName t c).name = some v := by
  unfold updateName
  rw [if_pos (by simp [truthy, h, hv])]
  exact h

lemma updateUniversity_frozen (t : String) (c : CandidateInfo) (v : String) (hv : v ≠ "")
    (h : c.university = some v) : (updateUniversity t c).university = some v := by
  unfold updateUniversity
  rw [if_pos (by simp [truthy, h, hv])]
  exact h

lemma updateExperience_frozen (t : String) (c : CandidateInfo) (v : String) (hv : v ≠ "")
    (h : c.experience = some v) : (updateExperience t c).experience = some v := by
  unfold updateExperience
  rw [if_pos (by simp [truthy, h, hv])]
  exact h

lemma updateCompany_frozen (t : String) (c : CandidateInfo) (v : String) (hv : v ≠ "")
    (h : c.company = some v) : (updateCompany t c).company = some v := by
  unfold updateCompany
  rw [if_pos (by simp [truthy, h, hv])]
  exact h

lemma updateSkills_frozen (t : String) (c : CandidateInfo) (l : List String) (hl : l ≠ [])
    (h : c.skills = some l) : (updateSkills t c).skills = some l := by
  unfold updateSkills
  rw [if_neg (by simp [h, hl])]
  exact h

lemma updateName_fields (t : String) (c : CandidateInfo) :
    (updateName t c).university = c.university ∧ (updateName t c).experience = c.experience ∧
    (updateName t c).company = c.company ∧ (updateName t c).skills = c.skills := by
  rcases updateName_cases t c with h | ⟨v, _, h⟩ <;> simp [h]

lemma updateUniversity_fields (t : String) (c : CandidateInfo) :
    (updateUniversity t c).name = c.name ∧ (updateUniversity t c).experience = c.experience ∧
    (updateUniversity t c).company = c.company ∧ (updateUniversity t c).skills = c.skills := by
  rcases updateUniversity_cases t c with h | ⟨v, _, h⟩ <;> simp [h]

lemma updateExperience_fields (t : String) (c : CandidateInfo) :
    (updateExperience t c).name = c.name ∧ (updateExperience t c).university = c.university ∧
    (updateExperience t c).company = c.company ∧ (updateExperience t c).skills = c.skills := by
  rcases updateExperience_cases t c with h | ⟨v, _, h⟩ <;> simp [h]

lemma updateCompany_fields (t : String) (c : CandidateInfo) :
    (updateCompany t c).name = c.name ∧ (updateCompany t c).university = c.university ∧
    (updateCompany t c).experience = c.experience ∧ (updateCompany t c).skills = c.skills := by
  rcases updateCompany_cases t c with h | ⟨v, _, h⟩ <;> simp [h]

lemma updateSkills_fields (t : String) (c : CandidateInfo) :
    (updateSkills t c).name = c.name ∧ (updateSkills t c).university = c.university ∧
    (updateSkills t c).experience = c.experience ∧ (updateSkills t c).company = c.company := by
  rcases updateSkills_cases t c with h | ⟨v, h⟩ <;> simp [h]

lemma uci_name_eq (r t : String) (c : CandidateInfo) :
    (updateCandidateInfo r t c).name = (updateName t c).name := by
  unfold updateCandidateInfo
  rw [(updateSkills_fields t _).1, (updateCompany_fields t _).1,
      (updateExperience_fields t _).1, (updateUniversity_fields t _).1]

lemma uci_university_eq (r t : String) (c : CandidateInfo) :
    (updateCandidateInfo r t c).university
      = (updateUniversity t (updateName t c)).university := by
  unfold updateCandidateInfo
  rw [(updateSkills_fields t _).2.1, (updateCompany_fields t _).2.1,
      (updateExperience_fields t _).2.1]

lemma uci_experience_eq (r t : String) (c : CandidateInfo) :
    (updateCandidateInfo r t c).experience
      = (updateExperience t (updateUniversity t (updateName t c))).experience := by
  unfold updateCandidateInfo
  rw [(updateSkills_fields t _).2.2.1, (updateCompany_fields t _).2.2.1]

lemma uci_company_eq (r t : String) (c : CandidateInfo) :
    (updateCandidateInfo r t c).company
      = (updateCompany t (updateExperience t (updateUniversity t (updateName t c)))).company := by
  unfold updateCandidateInfo
  rw [(updateSkills_fields t _).2.2.2]

lemma uci_skills_eq (r t : String) (c : CandidateInfo) :
    (updateCandidateInfo r t c).skills
      = (updateSkills t (updateCompany t (updateExperience t
          (updateUniversity t (updateName t c))))).skills := rfl

lemma updateCandidateInfo_good (r t : String) (c : CandidateInfo) (h : goodInfo c) :
    goodInfo (updateCandidateInfo r t c) := by
  obtain ⟨hn, hu, he, hc, hs⟩ := h
  refine ⟨?_, ?_, ?_, ?_, ?_⟩
  · intro v hv
    rw [uci_name_eq] at hv
    rcases updateName_cases t c with hcc | ⟨w, hw, hcc⟩
    · rw [hcc] at hv
      exact hn v hv
    · rw [hcc] at hv
      simp at hv
      rw [← hv]
      exact hw
  · intro v hv
    rw [uci_university_eq] at hv
    rcases updateUniversity_cases t (updateName t c) with hcc | ⟨w, hw, hcc⟩
    · rw [hcc, (updateName_fields t c).1] at hv
      exact hu v hv
    · rw [hcc] at hv
      simp at hv
      rw [← hv]
      exact hw
  · intro v hv
    rw [uci_experience_eq] at hv
    rcases updateExperience_cases t (updateUniversity t (updateName t c)) with hcc | ⟨w, hw, hcc⟩
    · rw [hcc, (updateUniversity_fields t _).2.1, (updateName_fields t c).2.1] at hv
      exact he v hv
    · rw [hcc] at hv
      simp at hv
      rw [← hv]
      exact hw
  · intro v hv
    rw [uci_company_eq] at hv
    rcases updateCompany_cases t (updateExperience t (updateUniversity t (updateName t c)))
      with hcc | ⟨w, hw, hcc⟩
    · rw [hcc, (updateExperience_fields t _).2.2.1, (updateUniversity_fields t _).2.2.1,
        (updateName_fields t c).2.2.1] at hv
      exact hc v hv
    · rw [hcc] at hv
      simp at hv
      rw [← hv]
      exact hw
  · intro l hl
    rw [uci_skills_eq] at hl
    rcases updateSkills_cases t
        (updateCompany t (updateExperience t (updateUniversity t (updateName t c))))
      with hcc | ⟨w, hcc⟩
    · rw [hcc, (updateCompany_fields t _).2.2.2, (updateExperience_fields t _).2.2.2,
        (updateUniversity_fields t _).2.2.2, (updateName_fields t c).2.2.2] at hl
      exact hs l hl
    · rw [hcc] at hl
      simp at hl
      rw [← hl]
      simp

lemma updateCandidateInfo_frozen (r t : String) (c : CandidateInfo) (h : goodInfo c) :
    (∀ v, c.name = some v → (updateCandidateInfo r t c).name = some v) ∧
    (∀ v, c.university = some v → (updateCandidateInfo r t c).university = some v) ∧
    (∀ v, c.experience = some v → (updateCandidateInfo r t c).experience = some v) ∧
    (∀ v, c.company = some v → (updateCandidateInfo r t c).company = some v) ∧
    (∀ l, c.skills = some l → (updateCandidateInfo r t c).skills = some l) := by
  obtain ⟨hn, hu, he, hc, hs⟩ := h
  refine ⟨?_, ?_, ?_, ?_, ?_⟩
  · intro v hv
    rw [uci_name_eq]
    exact updateName_frozen t c v (hn v hv) hv
  · intro v hv
    rw [uci_university_eq]
    exact updateUniversity_frozen t _ v (hu v hv)
      (by rw [(updateName_fields t c).1]; exact hv)
  · intro v hv
    rw [uci_experience_eq]
    exact updateExperience_frozen t _ v (he v hv)
      (by rw [(updateUniversity_fields t _).2.1, (updateName_fields t c).2.1]; exact hv)
  · intro v hv
    rw [uci_company_eq]
    exact updateCompany_frozen t _ v (hc v hv)
      (by rw [(updateExperience_fields t _).2.2.1, (updateUniversity_fields t _).2.2.1,
            (updateName_fields t c).2.2.1]; exact hv)
  · intro l hl
    rw [uci_skills_eq]
    exact updateSkills_frozen t _ l (hs l hl)
      (by rw [(updateCompany_fields t _).2.2.2, (updateExperience_fields t _).2.2.2,
            (updateUniversity_fields t _).2.2.2, (updateName_fields t c).2.2.2]; exact hl)

lemma goodInfo_empty : goodInfo {} := by
  refine ⟨?_, ?_, ?_, ?_, ?_⟩ <;> intro v h <;> exact Option.noConfusion h

lemma foldl_transcripts_persist (ps : List (String × String)) :
    ∀ c : CandidateInfo, goodInfo c →
      goodInfo (ps.foldl (fun c p => updateCandidateInfo p.1 p.2 c) c) ∧
      (∀ v, c.name = some v →
        (ps.foldl (fun c p => updateCandidateInfo p.1 p.2 c) c).name = some v) ∧
      (∀ v, c.university = some v →
        (ps.foldl (fun c p => updateCandidateInfo p.1 p.2 c) c).university = some v) ∧
      (∀ v, c.experience = some v →
        (ps.foldl (fun c p => updateCandidateInfo p.1 p.2 c) c).experience = some v) ∧
      (∀ v, c.company = some v →
        (ps.foldl (fun c p => updateCandidateInfo p.1 p.2 c) c).company = some v) ∧
      (∀ l, c.skills = some l →
        (ps.foldl (fun c p => updateCandidateInfo p.1 p.2 c) c).skills = some l) := by
  induction ps with
  | nil =>
    intro c h
    exact ⟨h, fun v hv => hv, fun v hv => hv, fun v hv => hv, fun v hv => hv, fun l hl => hl⟩
  | cons p rest ih =>
    intro c h
    have hgood := updateCandidateInfo_good p.1 p.2 c h
    have hfrozen := updateCandidateInfo_frozen p.1 p.2 c h
    have hrest := ih (updateCandidateInfo p.1 p.2 c) hgood
    refine ⟨hrest.1, ?_, ?_, ?_, ?_, ?_⟩
    · intro v hv
      exact hrest.2.1 v (hfrozen.1 v hv)
    · intro v hv
      exact hrest.2.2.1 v (hfrozen.2.1 v hv)
    · intro v hv
      exact hrest.2.2.2.1 v (hfrozen.2.2.1 v hv)
    · intro v hv
      exact hrest.2.2.2.2.1 v (hfrozen.2.2.2.1 v hv)
    · intro l hl
      exact hrest.2.2.2.2.2 l (hfrozen.2.2.2.2 l hl)

/-! ### Rendering lemmas -/

lemma intercalate_go_append (sep y : String) :
    ∀ (xs : List String) (a : String),
      String.intercalate.go a sep (xs ++ [y]) = String.intercalate.go a sep xs ++ sep ++ y := by
  intro xs
  induction xs with
  | nil =>
    intro a
    rfl
  | cons x rest ih =>
    intro a
    simp only [List.cons_append]
    rw [show String.intercalate.go a sep (x :: (rest ++ [y]))
          = String.intercalate.go (a ++ sep ++ x) sep (rest ++ [y]) from rfl]
    rw [ih]
    rfl

lemma intercalate_append_singleton (sep y : String) (xs : List String) (h : xs ≠ []) :
    String.intercalate sep (xs ++ [y]) = String.intercalate sep xs ++ sep ++ y := by
  cases xs with
  | nil => exact absurd rfl h
  | cons x rest =>
    simp only [List.cons_append]
    show String.intercalate.go x sep (rest ++ [y])
      = String.intercalate.go x sep rest ++ sep ++ y
    exact intercalate_go_append sep y rest x

lemma formatConversationHistory_append (h : List Turn) (t : Turn) (hne : h ≠ []) :
    formatConversationHistory (h ++ [t])
      = formatConversationHistory h ++ "\n" ++ renderMsg h.length t := by
  unfold formatConversationHistory
  rw [if_neg (by simp), if_neg (by simp [hne])]
  rw [List.enum_append, List.map_append]
  have henum : List.enumFrom h.length [t] = [(h.length, t)] := by
    simp [List.enumFrom]
  rw [henum]
  have hxs : h.enum.map (fun p => renderMsg p.1 p.2) ≠ [] := by
    intro he
    apply hne
    have hlen := congrArg List.length he
    simp at hlen
    exact hlen
  rw [show List.map (fun p => renderMsg p.1 p.2) [(h.length, t)] = [renderMsg h.length t]
        from rfl]
  exact intercalate_append_singleton "\n" (renderMsg h.length t) _ hxs

/-! ### Claim theorems -/

/-- C2: for every analysis sample the silence countdown is armed only when
speech has occurred in the session, the previous sample was speaking, the
current sample is silence, the utterance buffer is non-empty and no
countdown is pending; no countdown starts on a silence-to-silence sample;
while processing or playing, analysis is inert and no chunk is accepted;
and a dispatch while a request is in flight does nothing and issues no
second request. -/
theorem silence_countdown_arming_guard :
    (∀ (s : IState) (d : List Nat),
      (analyzeAudio d s).silenceTimerPending = true → s.silenceTimerPending = false →
        s.hasSpokenInCurrentSession = true ∧ s.previousSpeakingState = true ∧
        isSpeakingSample d = false ∧ s.chunks ≠ [] ∧
        s.isProcessing = false ∧ s.isPlayingTTS = false)
    ∧ (∀ (s : IState) (d : List Nat),
        s.previousSpeakingState = false → isSpeakingSample d = false →
        (analyzeAudio d s).silenceTimerPending = s.silenceTimerPending)
    ∧ (∀ (s : IState) (d : List Nat),
        s.isProcessing = true ∨ s.isPlayingTTS = true → analyzeAudio d s = s)
    ∧ (∀ (s : IState) (tag size : Nat),
        s.isProcessing = true ∨ s.isPlayingTTS = true →
        (onDataAvailable tag size s).chunks = s.chunks)
    ∧ (∀ (s : IState) (o : NetOutcome) (t1 t2 : Nat),
        s.isProcessing = true → sendCurrentAudio o t1 t2 s = ⟨s, false⟩) := by
  refine ⟨?_, ?_, ?_, ?_, ?_⟩
  · intro s d h1 h2
    unfold analyzeAudio at h1
    by_cases hg : s.isProcessing = true ∨ s.isPlayingTTS = true
    · rw [if_pos hg] at h1
      exact absurd h1 (by simp [h2])
    · rw [if_neg hg] at h1
      by_cases hs : isSpeakingSample d = true
      · rw [if_pos hs] at h1
        simp at h1
      · rw [if_neg hs] at h1
        by_cases harm : s.hasSpokenInCurrentSession = true ∧ s.previousSpeakingState = true ∧
            s.chunks ≠ [] ∧ s.silenceTimerPending = false ∧
            s.isProcessing = false ∧ s.isPlayingTTS = false
        · exact ⟨harm.1, harm.2.1, by simpa using hs, harm.2.2.1,
            harm.2.2.2.2.1, harm.2.2.2.2.2⟩
        · rw [if_neg harm] at h1
          simp at h1
          exact absurd h1 (by simp [h2])
  · intro s d hprev hs
    unfold analyzeAudio
    by_cases hg : s.isProcessing = true ∨ s.isPlayingTTS = true
    · rw [if_pos hg]
    · rw [if_neg hg, if_neg (by simp [hs]), if_neg (by simp [hprev])]
  · intro s d hg
    unfold analyzeAudio
    rw [if_pos hg]
  · intro s tag size hg
    rcases hg with h | h <;> simp [onDataAvailable, h]
  · intro s o t1 t2 h
    exact sendCurrentAudio_eq_guard o t1 t2 s (Or.inr h)

/-- Closed instance of C2: while a request is being processed, an analysis
tick leaves the state untouched. -/
theorem silence_countdown_arming_guard_witness :
    analyzeAudio [0] { initialState with isProcessing := true }
      = { initialState with isProcessing := true } :=
  silence_countdown_arming_guard.2.2.1 { initialState with isProcessing := true } [0]
    (Or.inl rfl)

/-- C4: on every failure during processing (payload too small or empty,
network failure, or a response without text), an error message is
surfaced, exactly one fresh recording session is started, and the system
does not remain in processing or enter playback. -/
theorem processing_failure_restarts_recording :
    ∀ (s : IState) (o : NetOutcome) (t1 t2 : Nat),
      s.chunks ≠ [] → s.isProcessing = false →
      ((∃ msg, o = NetOutcome.failure msg) ∨
       (∃ tr au mi, o = NetOutcome.ok "" tr au mi) ∨
       chunkSum s.chunks < 1000) →
      (∃ m, (sendCurrentAudio o t1 t2 s).state.error = "エラーが発生しました: " ++ m) ∧
      (sendCurrentAudio o t1 t2 s).state.currentRecordingSession
        = s.currentRecordingSession + 1 ∧
      (sendCurrentAudio o t1 t2 s).state.isProcessing = false ∧
      (sendCurrentAudio o t1 t2 s).state.isPlayingTTS = s.isPlayingTTS := by
  intro s o t1 t2 hne hpr hcase
  by_cases hsz : chunkSum s.chunks < 1000
  · rw [sendCurrentAudio_eq_small o t1 t2 s hne hpr hsz]
    exact ⟨⟨_, rfl⟩, rfl, rfl, rfl⟩
  · have hsz' : 1000 ≤ chunkSum s.chunks := by omega
    rcases hcase with ⟨msg, rfl⟩ | ⟨tr, au, mi, rfl⟩ | h
    · rw [sendCurrentAudio_eq_netFailure msg t1 t2 s hne hpr hsz']
      exact ⟨⟨_, rfl⟩, rfl, rfl, rfl⟩
    · rw [sendCurrentAudio_eq_noText tr au mi t1 t2 s hne hpr hsz']
      exact ⟨⟨_, rfl⟩, rfl, rfl, rfl⟩
    · exact absurd h hsz

/-- Closed instance of C4: a rejected network call surfaces an error and
starts exactly one fresh session. -/
theorem processing_failure_restarts_recording_witness :
    (∃ m, (sendCurrentAudio (NetOutcome.failure "network error") 0 1 sampleState).state.error
        = "エラーが発生しました: " ++ m) ∧
    (sendCurrentAudio (NetOutcome.failure "network error") 0 1 sampleState).state.currentRecordingSession
      = sampleState.currentRecordingSession + 1 ∧
    (sendCurrentAudio (NetOutcome.failure "network error") 0 1 sampleState).state.isProcessing = false ∧
    (sendCurrentAudio (NetOutcome.failure "network error") 0 1 sampleState).state.isPlayingTTS
      = sampleState.isPlayingTTS :=
  processing_failure_restarts_recording sampleState (NetOutcome.failure "network error") 0 1
    (by decide) rfl (Or.inl ⟨_, rfl⟩)

/-- C5: a captured payload below the 1000-byte floor (including empty) is
rejected with an error, no network call is made, and a fresh recording
session is started with the processing flag cleared. -/
theorem minimum_utterance_floor_rejection :
    ∀ (s : IState) (o : NetOutcome) (t1 t2 : Nat),
      s.chunks ≠ [] → s.isProcessing = false → chunkSum s.chunks < 1000 →
      (sendCurrentAudio o t1 t2 s).netCalled = false ∧
      (∃ m, (sendCurrentAudio o t1 t2 s).state.error = "エラーが発生しました: " ++ m) ∧
      (sendCurrentAudio o t1 t2 s).state.currentRecordingSession
        = s.currentRecordingSession + 1 ∧
      (sendCurrentAudio o t1 t2 s).state.isProcessing = false ∧
      (sendCurrentAudio o t1 t2 s).state.isPlayingTTS = s.isPlayingTTS ∧
      (sendCurrentAudio o t1 t2 s).state.chunks = [] := by
  intro s o t1 t2 hne hpr hsz
  rw [sendCurrentAudio_eq_small o t1 t2 s hne hpr hsz]
  exact ⟨rfl, ⟨_, rfl⟩, rfl, rfl, rfl, rfl⟩

/-- Closed instance of C5: a 500-byte capture is rejected without any
network call and recording restarts. -/
theorem minimum_utterance_floor_rejection_witness :
    (sendCurrentAudio (NetOutcome.ok "Q" "t" "" "") 0 1 smallState).netCalled = false ∧
    (∃ m, (sendCurrentAudio (NetOutcome.ok "Q" "t" "" "") 0 1 smallState).state.error
        = "エラーが発生しました: " ++ m) ∧
    (sendCurrentAudio (NetOutcome.ok "Q" "t" "" "") 0 1 smallState).state.currentRecordingSession
      = smallState.currentRecordingSession + 1 ∧
    (sendCurrentAudio (NetOutcome.ok "Q" "t" "" "") 0 1 smallState).state.isProcessing = false ∧
    (sendCurrentAudio (NetOutcome.ok "Q" "t" "" "") 0 1 smallState).state.isPlayingTTS
      = smallState.isPlayingTTS ∧
    (sendCurrentAudio (NetOutcome.ok "Q" "t" "" "") 0 1 smallState).state.chunks = [] :=
  minimum_utterance_floor_rejection smallState (NetOutcome.ok "Q" "t" "" "") 0 1
    (by decide) rfl (by decide)

/-- C6: the interview phase is a pure function of the user-turn count with
thresholds 2, 5, 8, 11; the specified count-to-phase table holds; and after
every successful round trip the stored phase equals the phase recomputed
from the just-extended history. -/
theorem phase_pure_function_of_user_count :
    (∀ h₁ h₂ : List Turn, userTurnCount h₁ = userTurnCount h₂ →
       updateInterviewPhase h₁ = updateInterviewPhase h₂)
    ∧ (updateInterviewPhase (mkUserHist 0) = Phase.introduction ∧
       updateInterviewPhase (mkUserHist 2) = Phase.introduction ∧
       updateInterviewPhase (mkUserHist 3) = Phase.experience ∧
       updateInterviewPhase (mkUserHist 5) = Phase.experience ∧
       updateInterviewPhase (mkUserHist 6) = Phase.skills ∧
       updateInterviewPhase (mkUserHist 8) = Phase.skills ∧
       updateInterviewPhase (mkUserHist 9) = Phase.motivation ∧
       updateInterviewPhase (mkUserHist 11) = Phase.motivation ∧
       updateInterviewPhase (mkUserHist 12) = Phase.closing)
    ∧ (∀ (s : IState) (t1 t2 : Nat) (text transcript audio mimeType : String),
        s.chunks ≠ [] → s.isProcessing = false → 1000 ≤ chunkSum s.chunks → text ≠ "" →
        (sendCurrentAudio (NetOutcome.ok text transcript audio mimeType) t1 t2 s).state.interviewPhase
          = updateInterviewPhase
              (sendCurrentAudio (NetOutcome.ok text transcript audio mimeType) t1 t2 s).state.conversationHistory) := by
  refine ⟨?_, by decide, ?_⟩
  · intro h₁ h₂ he
    unfold updateInterviewPhase
    simp only [he]
  · intro s t1 t2 text transcript audio mimeType hne hpr hsz htext
    by_cases haud : audio ≠ "" ∧ mimeType ≠ ""
    · rw [sendCurrentAudio_eq_ok_audio text transcript audio mimeType t1 t2 s hne hpr hsz htext haud]
      rfl
    · rw [sendCurrentAudio_eq_ok_noaudio text transcript audio mimeType t1 t2 s hne hpr hsz htext haud]
      rfl

/-- Closed instance of C6: two different histories with the same user-turn
count classify to the same phase. -/
theorem phase_pure_function_of_user_count_witness :
    updateInterviewPhase [⟨Role.user, "a", 0⟩, ⟨Role.assistant, "b", 1⟩]
      = updateInterviewPhase [⟨Role.user, "c", 5⟩] :=
  phase_pure_function_of_user_count.1 [⟨Role.user, "a", 0⟩, ⟨Role.assistant, "b", 1⟩]
    [⟨Role.user, "c", 5⟩] (by decide)

/-- C8: after a successful round trip the loop always resumes recording:
with no synthesized audio the system skips playback and starts a fresh
session directly; with audio (and its mime type) present it enters
playback; and on playback completion or error alike a fresh recording
session is started. -/
theorem processing_success_resumes_recording :
    (∀ (s : IState) (t1 t2 : Nat) (text transcript mimeType : String),
       s.chunks ≠ [] → s.isProcessing = false → s.isPlayingTTS = false →
       1000 ≤ chunkSum s.chunks → text ≠ "" →
       (sendCurrentAudio (NetOutcome.ok text transcript "" mimeType) t1 t2 s).state.isPlayingTTS = false ∧
       (sendCurrentAudio (NetOutcome.ok text transcript "" mimeType) t1 t2 s).state.currentRecordingSession
         = s.currentRecordingSession + 1 ∧
       (sendCurrentAudio (NetOutcome.ok text transcript "" mimeType) t1 t2 s).state.isProcessing = false)
    ∧ (∀ (s : IState) (t1 t2 : Nat) (text transcript audio mimeType : String),
        s.chunks ≠ [] → s.isProcessing = false → 1000 ≤ chunkSum s.chunks → text ≠ "" →
        audio ≠ "" → mimeType ≠ "" →
        (sendCurrentAudio (NetOutcome.ok text transcript audio mimeType) t1 t2 s).state.isPlayingTTS = true ∧
        (sendCurrentAudio (NetOutcome.ok text transcript audio mimeType) t1 t2 s).state.isProcessing = false ∧
        (sendCurrentAudio (NetOutcome.ok text transcript audio mimeType) t1 t2 s).netCalled = true)
    ∧ (∀ s : IState,
        (onPlaybackEnded s).currentRecordingSession = s.currentRecordingSession + 1 ∧
        (onPlaybackEnded s).isPlayingTTS = false ∧ (onPlaybackEnded s).chunks = [])
    ∧ (∀ s : IState,
        (onPlaybackError s).currentRecordingSession = s.currentRecordingSession + 1 ∧
        (onPlaybackError s).isPlayingTTS = false ∧ (onPlaybackError s).chunks = []) := by
  refine ⟨?_, ?_, ?_, ?_⟩
  · intro s t1 t2 text transcript mimeType hne hpr hpl hsz htext
    rw [sendCurrentAudio_eq_ok_noaudio text transcript "" mimeType t1 t2 s hne hpr hsz htext
      (by simp)]
    refine ⟨?_, rfl, rfl⟩
    simpa [startNewRecordingSession, appendTurns, dispatchReset] using hpl
  · intro s t1 t2 text transcript audio mimeType hne hpr hsz htext hau hmi
    rw [sendCurrentAudio_eq_ok_audio text transcript audio mimeType t1 t2 s hne hpr hsz htext
      ⟨hau, hmi⟩]
    exact ⟨rfl, rfl, rfl⟩
  · intro s
    exact ⟨rfl, rfl, rfl⟩
  · intro s
    exact ⟨rfl, rfl, rfl⟩

/-- Closed instance of C8: a response with no audio leads straight back to
a fresh recording session with playback off. -/
theorem processing_success_resumes_recording_witness :
    (sendCurrentAudio (NetOutcome.ok "Q2" "I am Taro" "" "") 0 1 sampleState).state.isPlayingTTS = false ∧
    (sendCurrentAudio (NetOutcome.ok "Q2" "I am Taro" "" "") 0 1 sampleState).state.currentRecordingSession
      = sampleState.currentRecordingSession + 1 ∧
    (sendCurrentAudio (NetOutcome.ok "Q2" "I am Taro" "" "") 0 1 sampleState).state.isProcessing = false :=
  processing_success_resumes_recording.1 sampleState 0 1 "Q2" "I am Taro" ""
    (by decide) rfl rfl (by decide) (by decide)

/-- C10: every dispatched utterance leaves the buffer snapshotted away and
cleared with the spoken/previous-speaking flags and countdown reset, and a
failed round trip (network failure or missing text) leaves the
conversation history, phase and fact sheet unchanged — the captured audio
is discarded, not requeued. -/
theorem dispatch_snapshot_and_discard :
    ∀ (s : IState) (o : NetOutcome) (t1 t2 : Nat),
      s.chunks ≠ [] → s.isProcessing = false →
      ((sendCurrentAudio o t1 t2 s).state.chunks = [] ∧
       (sendCurrentAudio o t1 t2 s).state.hasSpokenInCurrentSession = false ∧
       (sendCurrentAudio o t1 t2 s).state.previousSpeakingState = false ∧
       (sendCurrentAudio o t1 t2 s).state.silenceTimerPending = false) ∧
      (((∃ msg, o = NetOutcome.failure msg) ∨ (∃ tr au mi, o = NetOutcome.ok "" tr au mi)) →
        (sendCurrentAudio o t1 t2 s).state.conversationHistory = s.conversationHistory ∧
        (sendCurrentAudio o t1 t2 s).state.interviewPhase = s.interviewPhase ∧
        (sendCurrentAudio o t1 t2 s).state.candidateInfo = s.candidateInfo) := by
  intro s o t1 t2 hne hpr
  constructor
  · by_cases hsz : chunkSum s.chunks < 1000
    · rw [sendCurrentAudio_eq_small o t1 t2 s hne hpr hsz]
      exact ⟨rfl, rfl, rfl, rfl⟩
    · have hsz' : 1000 ≤ chunkSum s.chunks := by omega
      match o with
      | NetOutcome.failure msg =>
        rw [sendCurrentAudio_eq_netFailure msg t1 t2 s hne hpr hsz']
        exact ⟨rfl, rfl, rfl, rfl⟩
      | NetOutcome.ok text transcript audio mimeType =>
        by_cases htext : text = ""
        · subst htext
          rw [sendCurrentAudio_eq_noText transcript audio mimeType t1 t2 s hne hpr hsz']
          exact ⟨rfl, rfl, rfl, rfl⟩
        · by_cases haud : audio ≠ "" ∧ mimeType ≠ ""
          · rw [sendCurrentAudio_eq_ok_audio text transcript audio mimeType t1 t2 s hne hpr
              hsz' htext haud]
            exact ⟨rfl, rfl, rfl, rfl⟩
          · rw [sendCurrentAudio_eq_ok_noaudio text transcript audio mimeType t1 t2 s hne hpr
              hsz' htext haud]
            exact ⟨rfl, rfl, rfl, rfl⟩
  · intro hfail
    by_cases hsz : chunkSum s.chunks < 1000
    · rw [sendCurrentAudio_eq_small o t1 t2 s hne hpr hsz]
      exact ⟨rfl, rfl, rfl⟩
    · have hsz' : 1000 ≤ chunkSum s.chunks := by omega
      rcases hfail with ⟨msg, rfl⟩ | ⟨tr, au, mi, rfl⟩
      · rw [sendCurrentAudio_eq_netFailure msg t1 t2 s hne hpr hsz']
        exact ⟨rfl, rfl, rfl⟩
      · rw [sendCurrentAudio_eq_noText tr au mi t1 t2 s hne hpr hsz']
        exact ⟨rfl, rfl, rfl⟩

/-- Closed instance of C10: after a failed call the buffer is empty, the
flags are reset, and history, phase and fact sheet are untouched. -/
theorem dispatch_snapshot_and_discard_witness :
    ((sendCurrentAudio (NetOutcome.failure "boom") 2 3 sampleState).state.chunks = [] ∧
     (sendCurrentAudio (NetOutcome.failure "boom") 2 3 sampleState).state.hasSpokenInCurrentSession = false ∧
     (sendCurrentAudio (NetOutcome.failure "boom") 2 3 sampleState).state.previousSpeakingState = false ∧
     (sendCurrentAudio (NetOutcome.failure "boom") 2 3 sampleState).state.silenceTimerPending = false) ∧
    ((sendCurrentAudio (NetOutcome.failure "boom") 2 3 sampleState).state.conversationHistory
       = sampleState.conversationHistory ∧
     (sendCurrentAudio (NetOutcome.failure "boom") 2 3 sampleState).state.interviewPhase
       = sampleState.interviewPhase ∧
     (sendCurrentAudio (NetOutcome.failure "boom") 2 3 sampleState).state.candidateInfo
       = sampleState.candidateInfo) :=
  ⟨(dispatch_snapshot_and_discard sampleState (NetOutcome.failure "boom") 2 3 (by decide) rfl).1,
   (dispatch_snapshot_and_discard sampleState (NetOutcome.failure "boom") 2 3 (by decide) rfl).2
     (Or.inl ⟨_, rfl⟩)⟩

/-- C9: for fixed history, phase and fact sheet the prompt composer is
deterministic (equal inputs give byte-identical output); appending a turn
to a non-empty history appends its rendering — with its speaker-role
label — after all previously rendered lines, so lines appear in strict
chronological order; and only currently-known, non-empty facts are
rendered (no facts section at all without a truthy name). -/
theorem prompt_composer_deterministic_ordered :
    (∀ (p₁ p₂ : Phase) (h₁ h₂ : List Turn) (c₁ c₂ : CandidateInfo),
       p₁ = p₂ → h₁ = h₂ → c₁ = c₂ →
       createSystemPrompt p₁ h₁ c₁ = createSystemPrompt p₂ h₂ c₂)
    ∧ (∀ (h : List Turn) (t : Turn), h ≠ [] →
        formatConversationHistory (h ++ [t])
          = formatConversationHistory h ++ "\n" ++ renderMsg h.length t)
    ∧ (∀ (idx : Nat) (msg : Turn), msg.role = Role.user →
        renderMsg idx msg
          = "【やり取り" ++ toString (idx / 2 + 1) ++ "】\n候補者: " ++ msg.content ++ "\n")
    ∧ (∀ (idx : Nat) (msg : Turn), msg.role = Role.assistant →
        renderMsg idx msg = "面接官: " ++ msg.content ++ "\n")
    ∧ (∀ c : CandidateInfo, truthy c.name = false → candidateInfoTextOf c = "")
    ∧ candidateInfoTextOf ⟨some "佐藤", none, none, none, some "東京大学", none⟩
        = "\n候補者情報:\n- 名前: 佐藤\n- 大学: 東京大学" := by
  refine ⟨?_, formatConversationHistory_append, ?_, ?_, ?_, by decide⟩
  · intro p₁ p₂ h₁ h₂ c₁ c₂ hp hh hc
    rw [hp, hh, hc]
  · intro idx msg hrole
    unfold renderMsg
    rw [if_pos hrole]
  · intro idx msg hrole
    unfold renderMsg
    rw [if_neg (by simp [hrole])]
  · intro c hc
    simp [candidateInfoTextOf, hc]

/-- Closed instance of C9: appending a user turn to a one-turn history
renders it at the end with the user label. -/
theorem prompt_composer_deterministic_ordered_witness :
    formatConversationHistory ([⟨Role.assistant, "A", 0⟩] ++ [⟨Role.user, "B", 1⟩])
      = formatConversationHistory [⟨Role.assistant, "A", 0⟩] ++ "\n"
        ++ renderMsg 1 ⟨Role.user, "B", 1⟩ :=
  prompt_composer_deterministic_ordered.2.1 [⟨Role.assistant, "A", 0⟩] ⟨Role.user, "B", 1⟩
    (by decide)

/-- C7: every fact-sheet kind is write-once per session — over any
sequence of round trips starting from the empty sheet, a populated kind is
never overwritten by later transcripts; for each kind the ordered pattern
list is tried and the first sufficiently long match wins; and feeding two
different name-bearing transcripts retains only the first extracted
name. -/
theorem fact_sheet_write_once :
    (∀ (us vs : List (String × String)) (v : String),
       (applyTranscripts us).name = some v → (applyTranscripts (us ++ vs)).name = some v)
    ∧ (∀ (us vs : List (String × String)) (v : String),
       (applyTranscripts us).university = some v →
         (applyTranscripts (us ++ vs)).university = some v)
    ∧ (∀ (us vs : List (String × String)) (v : String),
       (applyTranscripts us).experience = some v →
         (applyTranscripts (us ++ vs)).experience = some v)
    ∧ (∀ (us vs : List (String × String)) (v : String),
       (applyTranscripts us).company = some v →
         (applyTranscripts (us ++ vs)).company = some v)
    ∧ (∀ (us vs : List (String × String)) (l : List String),
       (applyTranscripts us).skills = some l →
         (applyTranscripts (us ++ vs)).skills = some l)
    ∧ (∀ (p : Pattern) (rest : List Pattern) (t : String) (n : Nat) (m : String),
        jsMatchGroup1 p t = some m → n < (jsTrim m).length →
        tryPatterns (p :: rest) t n = some (jsTrim m))
    ∧ (applyTranscripts [("", "私の名前は田中です")]).name = some "田中"
    ∧ (applyTranscripts [("", "私の名前は鈴木です")]).name = some "鈴木"
    ∧ (applyTranscripts [("", "私の名前は田中です"), ("", "私の名前は鈴木です")]).name
        = some "田中" := by
  have main : ∀ (us vs : List (String × String)), goodInfo (applyTranscripts us) ∧
      (∀ v, (applyTranscripts us).name = some v →
        (applyTranscripts (us ++ vs)).name = some v) ∧
      (∀ v, (applyTranscripts us).university = some v →
        (applyTranscripts (us ++ vs)).university = some v) ∧
      (∀ v, (applyTranscripts us).experience = some v →
        (applyTranscripts (us ++ vs)).experience = some v) ∧
      (∀ v, (applyTranscripts us).company = some v →
        (applyTranscripts (us ++ vs)).company = some v) ∧
      (∀ l, (applyTranscripts us).skills = some l →
        (applyTranscripts (us ++ vs)).skills = some l) := by
    intro us vs
    have hg : goodInfo (applyTranscripts us) :=
      (foldl_transcripts_persist us {} goodInfo_empty).1
    have happ : applyTranscripts (us ++ vs)
        = vs.foldl (fun c p => updateCandidateInfo p.1 p.2 c) (applyTranscripts us) := by
      unfold applyTranscripts
      exact List.foldl_append _ _ us vs
    have hp := foldl_transcripts_persist vs (applyTranscripts us) hg
    rw [happ]
    exact ⟨hg, hp.2.1, hp.2.2.1, hp.2.2.2.1, hp.2.2.2.2.1, hp.2.2.2.2.2⟩
  refine ⟨fun us vs => (main us vs).2.1, fun us vs => (main us vs).2.2.1,
    fun us vs => (main us vs).2.2.2.1, fun us vs => (main us vs).2.2.2.2.1,
    fun us vs => (main us vs).2.2.2.2.2, ?_, by decide, by decide, by decide⟩
  intro p rest t n m hm hl
  simp only [tryPatterns, hm]
  rw [if_pos hl]

/-- Closed instance of C7: after the name was extracted from the first
transcript, a second name-bearing transcript leaves it unchanged. -/
theorem fact_sheet_write_once_witness :
    (applyTranscripts ([("", "私の名前は田中です")] ++ [("", "私の名前は鈴木です")])).name
      = some "田中" :=
  fact_sheet_write_once.1 [("", "私の名前は田中です")] [("", "私の名前は鈴木です")]
    "田中" (by decide)

/-- C3 counterexample: the recording-session id is not monotonically
increasing across the component's lifetime — starting a session, stopping
it and starting again yields a new session whose id (1) is not strictly
greater than the previous session's id (1), because stopping resets the
counter to 0. -/
theorem session_id_reset_counterexample :
    c3StateA.currentRecordingSession = 1 ∧
    c3StateB.currentRecordingSession = 0 ∧
    c3StateC.currentRecordingSession = 1 ∧
    ¬ c3StateA.currentRecordingSession < c3StateC.currentRecordingSession := by
  decide

/-- C3 amended: within one active interview each new recording session's
id is strictly greater than the previous one (stopping the interview
resets the counter to 0), and a data chunk is appended to the utterance
buffer exactly when it is nonempty, the system is neither mid-processing
nor mid-playback, and its tag equals the current session id; a chunk whose
tag mismatches the current session id is discarded. -/
theorem session_id_monotonic_within_interview :
    (∀ s : IState,
       s.currentRecordingSession < (startNewRecordingSession s).currentRecordingSession)
    ∧ (∀ s : IState, (stopRealTimeRecording s).currentRecordingSession = 0)
    ∧ (∀ (s : IState) (tag size : Nat), tag ≠ s.currentRecordingSession →
        (onDataAvailable tag size s).chunks = s.chunks)
    ∧ (∀ (s : IState) (tag size : Nat),
        s.isProcessing = false → s.isPlayingTTS = false → 0 < size →
        tag = s.currentRecordingSession →
        (onDataAvailable tag size s).chunks = s.chunks ++ [size])
    ∧ (∀ (s : IState) (tag size : Nat),
        s.isProcessing = true ∨ s.isPlayingTTS = true →
        (onDataAvailable tag size s).chunks = s.chunks) := by
  refine ⟨?_, ?_, ?_, ?_, ?_⟩
  · intro s
    simp [startNewRecordingSession]
  · intro s
    rfl
  · intro s tag size htag
    simp [onDataAvailable, htag]
  · intro s tag size hpr hpl hsize htag
    simp [onDataAvailable, hpr, hpl, hsize, htag]
  · intro s tag size hg
    rcases hg with h | h <;> simp [onDataAvailable, h]

/-- Closed instance of the amended C3: a chunk tagged with a stale session
id is discarded. -/
theorem session_id_monotonic_within_interview_witness :
    (onDataAvailable 5 2000 sampleState).chunks = sampleState.chunks :=
  session_id_monotonic_within_interview.2.2.1 sampleState 5 2000 (by decide)

/-- C1 (evaluation at the failing input): the greeting turn seeded by
`handleInitialAIGreeting` is wiped when `startRealTimeRecording` resets
the history, so the end-to-end scenario (start, one speaking sample, 1.5s
silence with a buffered chunk, one round trip answering
text "Q2" / transcript "I am Taro" / no audio) makes exactly one network
call but ends with a conversation history of length 2 — user turn then
assistant turn, without the initial greeting — while correctly moving
straight back to a fresh recording session with no playback. -/
theorem greeting_wiped_history_length_two :
    (handleInitialAIGreeting 0 initialState).conversationHistory
      = [⟨Role.assistant, initialMessage, 0⟩] ∧
    c1Start.conversationHistory = [] ∧
    c1Start.response = "" ∧
    (runScenario c1Trace c1Start).2 = 1 ∧
    (runScenario c1Trace c1Start).1.conversationHistory.map Turn.content
      = ["I am Taro", "Q2"] ∧
    (runScenario c1Trace c1Start).1.conversationHistory.length = 2 ∧
    ¬ (runScenario c1Trace c1Start).1.conversationHistory.length = 3 ∧
    (runScenario c1Trace c1Start).1.isPlayingTTS = false ∧
    (runScenario c1Trace c1Start).1.isProcessing = false ∧
    (runScenario c1Trace c1Start).1.interviewPhase
      = updateInterviewPhase (runScenario c1Trace c1Start).1.conversationHistory ∧
    (runScenario c1Trace c1Start).1.currentRecordingSession
      = c1Start.currentRecordingSession + 1 := by
  decide

end Ployee
